import Mathlib

/-!
Shallow embedding of the consumption gateway of the marketplace repository
(services/consumption), covering the data model, the token-bucket rate
limiter, the quota manager, the API-key manager, the request router, the
cost meter, the policy client and the two Consume pipeline handlers.

Modelling conventions: Uuid values are natural numbers; timestamps are
integers (epoch seconds, matching the second granularity used by the
code); Rust f64 arithmetic is modelled by exact rational arithmetic;
the Redis cache and the Postgres store are modelled as reliable explicit
state (lists and finite maps) threaded through each operation; sources of
randomness and wall-clock reads are passed in as explicit arguments.
-/

namespace Marketplace

/-! ### JSON values (model of serde_json::Value) -/

/-- Model of serde_json::Number, which stores either an unsigned integer,
a signed integer, or a double. -/
inductive JNum where
  | uint : Nat → JNum
  | int : Int → JNum
  | float : ℚ → JNum

/-- Model of serde_json::Value. -/
inductive Json where
  | null : Json
  | bool : Bool → Json
  | num : JNum → Json
  | str : String → Json
  | arr : List Json → Json
  | obj : List (String × Json) → Json

/-- Object field lookup, Value::get(key). -/
def Json.get (j : Json) (key : String) : Option Json :=
  match j with
  | .obj fields => fields.lookup key
  | _ => none

/-- Number::as_u64: Some for the unsigned variant and for non-negative
signed integers, None for doubles. -/
def JNum.as_u64 : JNum → Option Nat
  | .uint n => some n
  | .int n => if 0 ≤ n then some n.toNat else none
  | .float _ => none

/-- Value::as_u64. -/
def Json.as_u64 : Json → Option Nat
  | .num n => n.as_u64
  | _ => none

/-- Rust `as u32` narrowing cast on an unsigned value. -/
def u32cast (n : Nat) : Nat := n % 4294967296

/-- Byte length of the compact serde_json serialization of a number
(double formatting approximated by an exact decimal num/den rendering;
only the length of the serialization is ever consumed, by the token
estimator fallback). -/
def JNum.serLen : JNum → Nat
  | .uint n => (Nat.repr n).length
  | .int n => (Int.repr n).length
  | .float q => (Int.repr q.num).length + 1 + (Nat.repr q.den).length

mutual

/-- Byte length of the compact serde_json serialization of a value
(string escaping elided: strings are counted at their raw length plus
the two quotes). -/
def Json.serLen : Json → Nat
  | .null => 4
  | .bool true => 4
  | .bool false => 5
  | .num n => n.serLen
  | .str s => s.length + 2
  | .arr xs => 2 + Json.serLenArr xs
  | .obj fields => 2 + Json.serLenObj fields

/-- Serialized length of comma-separated array elements. -/
def Json.serLenArr : List Json → Nat
  | [] => 0
  | [x] => x.serLen
  | x :: y :: xs => x.serLen + 1 + Json.serLenArr (y :: xs)

/-- Serialized length of comma-separated object entries, each rendered
as a quoted key, a colon and the value. -/
def Json.serLenObj : List (String × Json) → Nat
  | [] => 0
  | [(k, v)] => k.length + 3 + v.serLen
  | (k, v) :: e :: fs => k.length + 3 + v.serLen + 1 + Json.serLenObj (e :: fs)

end

/-! ### Usage extraction (request_router.rs, extract_usage) -/

/-- models::UsageInfo (token counts are u32 in the source). -/
structure UsageInfo where
  prompt_tokens : Nat
  completion_tokens : Nat
  total_tokens : Nat
deriving DecidableEq, Repr

/-- RequestRouter::extract_usage. The Rust function returns
Result<UsageInfo> but every path returns Ok, so the embedding is a total
function; the Bool records whether the length-estimator fallback ran.
u32 narrowing casts follow release-mode (wrapping) semantics. -/
def extract_usage (response : Json) : UsageInfo × Bool :=
  match response.get "usage" with
  | some usage =>
      let prompt_tokens := u32cast (((usage.get "prompt_tokens").bind Json.as_u64).getD 0)
      let completion_tokens := u32cast (((usage.get "completion_tokens").bind Json.as_u64).getD 0)
      let total_tokens := u32cast (((usage.get "total_tokens").bind Json.as_u64).getD
        (u32cast (prompt_tokens + completion_tokens)))
      (⟨prompt_tokens, completion_tokens, total_tokens⟩, false)
  | none =>
      let estimated_tokens := u32cast (response.serLen / 4)
      (⟨0, estimated_tokens, estimated_tokens⟩, true)

/-! ### Service tiers (models/mod.rs) -/

/-- models::ServiceTier. -/
inductive ServiceTier where
  | basic
  | premium
  | enterprise
deriving DecidableEq, Repr

/-- ServiceTier::rate_limit (requests per second). -/
def ServiceTier.rate_limit : ServiceTier → Nat
  | .basic => 10
  | .premium => 100
  | .enterprise => 1000

/-- ServiceTier::burst_capacity. -/
def ServiceTier.burst_capacity : ServiceTier → Nat
  | .basic => 20
  | .premium => 200
  | .enterprise => 2000

/-- ServiceTier::quota_limit (tokens per month). -/
def ServiceTier.quota_limit : ServiceTier → Int
  | .basic => 100000
  | .premium => 10000000
  | .enterprise => 1000000000

/-- The lowercase debug rendering used when the tier is stored
(format with to_lowercase in create_api_key). -/
def ServiceTier.toDbString : ServiceTier → String
  | .basic => "basic"
  | .premium => "premium"
  | .enterprise => "enterprise"

/-! ### Token-bucket rate limiter (rate_limiter.rs) -/

/-- The cached bucket hash: fields tokens and last_update. The Lua
script only ever stores integer values here (the initial value is the
integer capacity, refill adds delta times an integer rate, consumption
subtracts the integer request size), so tokens is modelled as Int. -/
structure Bucket where
  tokens : Int
  last_update : Int
deriving DecidableEq, Repr

/-- models::RateLimitStatus. -/
structure RateLimitStatus where
  exceeded : Bool
  retry_after_seconds : Option Nat
  limit : Nat
  remaining : Nat
  reset_at : Int
deriving DecidableEq, Repr

/-- The Redis keyspace ratelimit:consumer:service, one bucket per
(consumer_id, service_id) pair. -/
def RlStore : Type := Nat × Nat → Option Bucket

/-- One atomic execution of the token-bucket Lua script of
check_rate_limit: load (or initialize) the bucket, refill by elapsed
time times rate capped at capacity, consume `requested` tokens when
available, store the bucket with last_update = now. Returns
((allowed, tokens after the call, retry_after), stored bucket).
Division in the retry_after computation is exact rational division
(the script is only invoked with the positive tier rates). -/
def rateLimitScript (capacity rate : Nat) (now requested : Int)
    (bucket : Option Bucket) : (Bool × Int × Nat) × Bucket :=
  let loaded : Int × Int :=
    match bucket with
    | some b => (b.tokens, b.last_update)
    | none => ((capacity : Int), now)
  let delta : Int := max 0 (now - loaded.2)
  let tokens : Int := min (capacity : Int) (loaded.1 + delta * (rate : Int))
  if requested ≤ tokens then
    ((true, tokens - requested, 0), ⟨tokens - requested, now⟩)
  else
    let retry_after : Nat := (⌈(((requested - tokens) : ℚ) / (rate : ℚ))⌉).toNat
    ((false, tokens, retry_after), ⟨tokens, now⟩)

/-- RateLimiter::check_rate_limit: runs the Lua script for one requested
token with the tier parameters and maps the reply onto RateLimitStatus
(`remaining` is the i64 reply narrowed `as u32`). -/
def check_rate_limit (store : RlStore) (consumer_id service_id : Nat)
    (tier : ServiceTier) (now : Int) : RateLimitStatus × RlStore :=
  let rate := tier.rate_limit
  let capacity := tier.burst_capacity
  let result := rateLimitScript capacity rate now 1 (store (consumer_id, service_id))
  let allowed := result.1.1
  let remaining := (result.1.2.1.emod 4294967296).toNat
  let retry_after := result.1.2.2
  let status : RateLimitStatus :=
    { exceeded := !allowed
      retry_after_seconds := if allowed then none else some retry_after
      limit := rate
      remaining := remaining
      reset_at := now + 60 }
  (status, fun k => if k = (consumer_id, service_id) then some result.2 else store k)

/-! ### API-key manager (api_key_manager.rs, models/mod.rs) -/

/-- Model of the Argon2 PHC string produced by hash_key: the encoded
string embeds the salt, and the digest is a function of the password and
the salt. The digest is modelled collision-free, so two PHC strings are
equal exactly when both the salt and the hashed password agree. -/
structure PhcHash where
  salt : Nat
  digest_of : String
deriving DecidableEq, Repr

/-- ApiKeyManager::hash_key with the freshly generated salt made
explicit (the Rust function draws it from OsRng on every call). -/
def hash_key (key : String) (salt : Nat) : PhcHash :=
  ⟨salt, key⟩

/-- models::ApiKey. -/
structure ApiKey where
  id : Nat
  key_hash : PhcHash
  consumer_id : Nat
  service_id : Nat
  tier : String
  created_at : Int
  expires_at : Option Int
  revoked_at : Option Int
  metadata : Json

/-- ApiKey::is_valid, with the wall-clock read Utc::now() made
explicit. -/
def ApiKey.is_valid (k : ApiKey) (now : Int) : Bool :=
  if k.revoked_at.isSome then
    false
  else
    match k.expires_at with
    | some expires_at => if now > expires_at then false else true
    | none => true

/-- ASCII lowercasing of one character (model of the character mapping
str::to_lowercase performs on the ASCII tier names). -/
def ascii_to_lower (c : Char) : Char :=
  if c = 'A' then 'a' else if c = 'B' then 'b' else if c = 'C' then 'c'
  else if c = 'D' then 'd' else if c = 'E' then 'e' else if c = 'F' then 'f'
  else if c = 'G' then 'g' else if c = 'H' then 'h' else if c = 'I' then 'i'
  else if c = 'J' then 'j' else if c = 'K' then 'k' else if c = 'L' then 'l'
  else if c = 'M' then 'm' else if c = 'N' then 'n' else if c = 'O' then 'o'
  else if c = 'P' then 'p' else if c = 'Q' then 'q' else if c = 'R' then 'r'
  else if c = 'S' then 's' else if c = 'T' then 't' else if c = 'U' then 'u'
  else if c = 'V' then 'v' else if c = 'W' then 'w' else if c = 'X' then 'x'
  else if c = 'Y' then 'y' else if c = 'Z' then 'z' else c

/-- Model of str::to_lowercase. -/
def str_to_lower (s : String) : String :=
  ⟨s.data.map ascii_to_lower⟩

/-- ApiKey::get_tier (unknown strings fall back to Basic). -/
def ApiKey.get_tier (k : ApiKey) : ServiceTier :=
  match str_to_lower k.tier with
  | "basic" => .basic
  | "premium" => .premium
  | "enterprise" => .enterprise
  | _ => .basic

/-- models::CreateApiKeyRequest. -/
structure CreateApiKeyRequest where
  service_id : String
  tier : ServiceTier
  expires_in_days : Option Int

/-- models::ApiKeyResponse (carries the plaintext key exactly once). -/
structure ApiKeyResponse where
  id : Nat
  key : String
  service_id : Nat
  tier : ServiceTier
  created_at : Int
  expires_at : Option Int

/-- Decimal value of one digit character. -/
def digit_val (c : Char) : Option Nat :=
  if c = '0' then some 0 else if c = '1' then some 1
  else if c = '2' then some 2 else if c = '3' then some 3
  else if c = '4' then some 4 else if c = '5' then some 5
  else if c = '6' then some 6 else if c = '7' then some 7
  else if c = '8' then some 8 else if c = '9' then some 9
  else none

/-- Model of Uuid::parse_str on the textual service id: Uuid values are
naturals in this embedding, written in decimal, and an unparsable string
is a failure. -/
def parse_uuid (s : String) : Option Nat :=
  if s = "" then none
  else s.data.foldl
    (fun acc c => acc.bind (fun a => (digit_val c).map (fun d => a * 10 + d)))
    (some 0)

/-- ApiKeyManager::generate_key: a 48-character alphanumeric body behind
the fixed literal; the randomly sampled body is an explicit argument. -/
def generate_key (body : String) : String := "llm_mk_" ++ body

/-- ApiKeyManager::create_api_key over an explicit api_keys table. The
random key body, the Argon2 salt, the generated record id and the
wall-clock time are explicit arguments. Returns the response (with the
plaintext key) and the table with the inserted row. -/
def create_api_key (db : List ApiKey) (consumer_id : Nat)
    (request : CreateApiKeyRequest) (key_body : String) (salt : Nat)
    (new_id : Nat) (now : Int) : Except String (ApiKeyResponse × List ApiKey) :=
  let api_key := generate_key key_body
  let key_hash := hash_key api_key salt
  let expires_at := request.expires_in_days.map (fun days => now + days * 86400)
  match parse_uuid request.service_id with
  | none => .error "Invalid service ID"
  | some service_id =>
      let record : ApiKey :=
        { id := new_id
          key_hash := key_hash
          consumer_id := consumer_id
          service_id := service_id
          tier := request.tier.toDbString
          created_at := now
          expires_at := expires_at
          revoked_at := none
          metadata := .obj [] }
      .ok ({ id := new_id, key := api_key, service_id := service_id,
             tier := request.tier, created_at := now, expires_at := expires_at },
           db ++ [record])

/-- ApiKeyManager::validate_key: hash the candidate with a fresh salt
and select the row whose stored hash equals the computed hash, then
reject records that are not valid. -/
def validate_key (db : List ApiKey) (api_key : String) (fresh_salt : Nat)
    (now : Int) : Except String ApiKey :=
  let key_hash := hash_key api_key fresh_salt
  match db.find? (fun k => k.key_hash == key_hash) with
  | none => .error "Invalid API key"
  | some record =>
      if record.is_valid now then .ok record
      else .error "API key is expired or revoked"

/-- ApiKeyManager::revoke_key: set revoked_at = now on the row matching
id and consumer with revoked_at still NULL; error when no row matched. -/
def revoke_key (db : List ApiKey) (key_id consumer_id : Nat) (now : Int) :
    Except String (List ApiKey) :=
  let hits := db.filter (fun k =>
    k.id == key_id && k.consumer_id == consumer_id && k.revoked_at.isNone)
  if hits.isEmpty then
    .error "API key not found or already revoked"
  else
    .ok (db.map (fun k =>
      if k.id == key_id && k.consumer_id == consumer_id && k.revoked_at.isNone then
        { k with revoked_at := some now }
      else k))

/-! ### Cost meter (usage_meter.rs) -/

/-- models::PricingRate. -/
structure PricingRate where
  tier : String
  rate : ℚ
  unit : String
deriving DecidableEq, Repr

/-- models::PricingModel. -/
structure PricingModel where
  model : String
  rates : List PricingRate
deriving DecidableEq, Repr

/-- models::CostInfo. -/
structure CostInfo where
  amount : ℚ
  currency : String
  breakdown : Json

/-- UsageMeter::calculate_cost. The Rust match on pricing.model.as_str()
is rendered as the equivalent chain of string comparisons. -/
def calculate_cost (pricing : PricingModel) (usage : UsageInfo) :
    Except String CostInfo :=
  if pricing.model = "per-token" then
    match pricing.rates.head? with
    | none => .error "No pricing rate found"
    | some rate =>
        .ok { amount := (usage.total_tokens : ℚ) * rate.rate
              currency := "USD"
              breakdown := .obj
                [("prompt_tokens", .num (.uint usage.prompt_tokens)),
                 ("completion_tokens", .num (.uint usage.completion_tokens)),
                 ("total_tokens", .num (.uint usage.total_tokens)),
                 ("rate_per_token", .num (.float rate.rate))] }
  else if pricing.model = "per-request" then
    match pricing.rates.head? with
    | none => .error "No pricing rate found"
    | some rate =>
        .ok { amount := rate.rate
              currency := "USD"
              breakdown := .obj
                [("requests", .num (.uint 1)),
                 ("rate_per_request", .num (.float rate.rate))] }
  else if pricing.model = "subscription" then
    .ok { amount := 0
          currency := "USD"
          breakdown := .obj
            [("model", .str "subscription"),
             ("note", .str "Pre-paid subscription")] }
  else
    .ok { amount := 0
          currency := "USD"
          breakdown := .obj [("error", .str "Unknown pricing model")] }

/-! ### Policy Engine client (policy_client.rs) -/

/-- policy_client::PolicyViolation. -/
structure PolicyViolation where
  policy_id : String
  policy_name : String
  severity : String
  message : String

/-- policy_client::PolicyValidationResponse. -/
structure PolicyValidationResponse where
  allowed : Bool
  reason : Option String
  violations : List PolicyViolation
  metadata : Json

/-- The observable outcome of the HTTP round trip to the Policy Engine:
either the send itself failed, or a response with the given status
arrived and its body parsed (or failed to parse) as a
PolicyValidationResponse. -/
inductive PolicyEngineOutcome where
  | transportError : String → PolicyEngineOutcome
  | response : Nat → Except String PolicyValidationResponse → PolicyEngineOutcome

/-- reqwest StatusCode::is_success. -/
def is_success_status (status : Nat) : Bool :=
  200 ≤ status && status < 300

/-- The literal fail-open object built by validate_consumption when the
Policy Engine replies with a non-success status. -/
def failOpenPolicyResponse : PolicyValidationResponse :=
  { allowed := true
    reason := some "Policy Engine unavailable - fail-open"
    violations := []
    metadata := .obj [("failover", .bool true)] }

/-- PolicyClient::validate_consumption, as a function of the round-trip
outcome: a transport failure propagates as an error; a non-success
status returns the fail-open object; a success status returns the
parsed body (or a parse error). -/
def validate_consumption (outcome : PolicyEngineOutcome) :
    Except String PolicyValidationResponse :=
  match outcome with
  | .transportError _ => .error "Failed to send request to Policy Engine"
  | .response status parsed =>
      if is_success_status status then
        match parsed with
        | .ok r => .ok r
        | .error _ => .error "Failed to parse Policy Engine response"
      else
        .ok failOpenPolicyResponse

/-! ### Request router (request_router.rs) -/

/-- models::SlaConfig. -/
structure SlaConfig where
  availability : ℚ
  max_latency_ms : Nat
  timeout_ms : Nat

/-- models::Service. -/
structure Service where
  id : Nat
  name : String
  version : String
  endpoint : String
  status : String
  pricing : PricingModel
  sla : SlaConfig
  created_at : Int

/-- models::ConsumeRequest. -/
structure ConsumeRequest where
  prompt : String
  max_tokens : Option Nat
  temperature : ℚ
  metadata : Json

/-- The observable outcome of one HTTP attempt against the upstream LLM
endpoint: the send failed (transport error or per-request timeout), or a
response arrived with a status, a body text and, when the body was valid
JSON, its parsed value; latency_ms is the measured elapsed time. -/
inductive UpstreamOutcome where
  | transportError : String → UpstreamOutcome
  | response : Nat → String → Option Json → Nat → UpstreamOutcome

/-- The error cases of RequestRouter::route_request. -/
inductive RouteError where
  | transport : String → RouteError
  | httpStatus : Nat → String → RouteError
  | badJson : RouteError
deriving DecidableEq, Repr

/-- RequestRouter::route_request, as a function of the attempt outcome:
bail on transport failure, bail on any non-success status, bail on an
unparsable body, otherwise extract usage and return
(body, usage, latency_ms). -/
def route_request (outcome : UpstreamOutcome) :
    Except RouteError (Json × UsageInfo × Nat) :=
  match outcome with
  | .transportError msg => .error (.transport msg)
  | .response status bodyText body latency_ms =>
      if is_success_status status then
        match body with
        | none => .error .badJson
        | some b => .ok (b, (extract_usage b).1, latency_ms)
      else
        .error (.httpStatus status bodyText)

/-- Result of RequestRouter::route_with_circuit_breaker: the final
result, the backoff sleeps performed (in ms, in order), and the number
of upstream attempts made. -/
structure RouteRun where
  result : Except RouteError (Json × UsageInfo × Nat)
  sleeps : List Nat
  attempts : Nat

/-- RequestRouter::route_with_circuit_breaker: MAX_RETRIES = 3 attempts
of route_request, sleeping 100 * 2 ^ (attempt - 1) ms after each failed
non-final attempt, returning the last error when all attempts fail. The
loop over attempt = 1..=3 is unrolled; outcomes k is the observable
outcome of the k-th upstream attempt. -/
def route_with_circuit_breaker (outcomes : Nat → UpstreamOutcome) : RouteRun :=
  match route_request (outcomes 1) with
  | .ok r => ⟨.ok r, [], 1⟩
  | .error _ =>
      match route_request (outcomes 2) with
      | .ok r => ⟨.ok r, [100], 2⟩
      | .error _ =>
          match route_request (outcomes 3) with
          | .ok r => ⟨.ok r, [100, 200], 3⟩
          | .error e3 => ⟨.error e3, [100, 200], 3⟩

/-! ### Quota manager (quota_manager.rs) -/

/-- models::QuotaStatus. -/
structure QuotaStatus where
  service_id : Nat
  consumer_id : Nat
  tier : ServiceTier
  used_tokens : Int
  total_tokens : Int
  remaining_tokens : Int
  reset_at : Int
  exceeded : Bool
deriving DecidableEq, Repr

/-- The Redis keyspace quota:consumer:service (a counter per pair;
absent means no usage recorded this month). -/
def QuotaStore : Type := Nat × Nat → Option Int

/-- QuotaManager::check_quota: pure read of the cached counter
(defaulting to 0) against the tier limit. reset_at (the first instant
of the next calendar month) is passed in rather than recomputing the
calendar arithmetic of get_quota_reset_time. -/
def check_quota (qstore : QuotaStore) (consumer_id service_id : Nat)
    (tier : ServiceTier) (reset_at : Int) : QuotaStatus :=
  let used_tokens := (qstore (consumer_id, service_id)).getD 0
  let total_tokens := tier.quota_limit
  let remaining_tokens := total_tokens - used_tokens
  { service_id := service_id
    consumer_id := consumer_id
    tier := tier
    used_tokens := used_tokens
    total_tokens := total_tokens
    remaining_tokens := remaining_tokens
    reset_at := reset_at
    exceeded := remaining_tokens ≤ 0 }

/-- QuotaManager::update_quota: INCR the cached counter by
usage.total_tokens (Redis INCR on a missing key starts from 0; the TTL
bookkeeping has no effect on the counter value). -/
def update_quota (qstore : QuotaStore) (consumer_id service_id : Nat)
    (usage : UsageInfo) : QuotaStore :=
  fun k =>
    if k = (consumer_id, service_id) then
      some ((qstore k).getD 0 + (usage.total_tokens : Int))
    else qstore k

/-! ### Usage records, SLA monitor, analytics (usage_meter.rs,
sla_monitor.rs, analytics_streamer.rs) -/

/-- models::UsageRecord. -/
structure UsageRecord where
  id : Nat
  request_id : Nat
  service_id : Nat
  consumer_id : Nat
  timestamp : Int
  duration_ms : Int
  usage : UsageInfo
  cost : CostInfo
  status : String
  error : Option Json

/-- models::SLAViolation. -/
structure SLAViolationRec where
  id : Nat
  service_id : Nat
  metric : String
  threshold : ℚ
  actual : ℚ
  timestamp : Int
  severity : String

/-- The analytics events the enhanced pipeline emits, mirroring the
record_* constructors of AnalyticsStreamer (timestamps elided; the
bounded channel is modelled as the list of accepted events). -/
inductive AnalyticsEvent where
  | policyViolation (service_id consumer_id : Nat)
      (policy_id policy_name severity message : String)
  | rateLimitExceeded (service_id consumer_id : Nat) (tier : String) (limit : Nat)
  | quotaExceeded (service_id consumer_id : Nat) (tier : String) (used total : Int)
  | consumption (request_id service_id consumer_id : Nat) (latency_ms : Nat)
      (usage : UsageInfo) (cost : CostInfo) (status : String)

/-- The stores the consumption service reads and writes: the services
and api_keys tables, the append-only usage_records and sla_violations
tables, the rate-limit and quota cache keyspaces and the analytics
channel. Modelled as reliable state (an I/O failure of the store is
outside the embedding). -/
structure GatewayState where
  services : List Service
  api_keys : List ApiKey
  usage_records : List UsageRecord
  sla_violations : List SLAViolationRec
  rl_store : RlStore
  quota_store : QuotaStore
  analytics : List AnalyticsEvent

/-- UsageMeter::record_usage: re-reads the service, recomputes the cost
and appends one UsageRecord; fails (without appending) when the service
is missing or the cost computation fails. The generated record id and
the wall-clock timestamp are explicit arguments. -/
def record_usage (st : GatewayState) (record_id request_id service_id consumer_id : Nat)
    (usage : UsageInfo) (duration_ms : Int) (status : String) (error : Option Json)
    (now : Int) : Except String (UsageRecord × GatewayState) :=
  match st.services.find? (fun s => s.id == service_id) with
  | none => .error "Failed to get service"
  | some service =>
      match calculate_cost service.pricing usage with
      | .error e => .error e
      | .ok cost =>
          let record : UsageRecord :=
            { id := record_id
              request_id := request_id
              service_id := service_id
              consumer_id := consumer_id
              timestamp := now
              duration_ms := duration_ms
              usage := usage
              cost := cost
              status := status
              error := error }
          .ok (record, { st with usage_records := st.usage_records ++ [record] })

/-- SLAMonitor::check_sla_violation for a completed request: record a
latency violation when latency_ms exceeds the SLA timeout (severity
critical beyond twice the timeout). The error-rate path spawns only for
status = "error"; the pipeline always passes "success", and the spawned
task touches no state of this embedding either way. -/
def check_sla_violation (st : GatewayState) (service : Service)
    (latency_ms : Nat) (violation_id : Nat) (now : Int) :
    Option SLAViolationRec × GatewayState :=
  if latency_ms > service.sla.timeout_ms then
    let violation : SLAViolationRec :=
      { id := violation_id
        service_id := service.id
        metric := "latency"
        threshold := (service.sla.timeout_ms : ℚ)
        actual := (latency_ms : ℚ)
        timestamp := now
        severity := if latency_ms > service.sla.timeout_ms * 2 then "critical" else "warning" }
    (some violation, { st with sla_violations := st.sla_violations ++ [violation] })
  else
    (none, st)

/-! ### The Consume pipeline (handlers/consumption.rs and
handlers/consumption_enhanced.rs) -/

/-- A handler rejection: (HTTP status code, message), mirroring the
axum error tuple. -/
def Rejection : Type := Nat × String

/-- models::ConsumeResponse. -/
structure ConsumeResponse where
  request_id : Nat
  response : Json
  usage : UsageInfo
  cost : CostInfo
  latency_ms : Nat

/-- The per-request environment of a Consume call: the wall clock, the
freshly drawn request and record ids, the observable outcomes of the
upstream attempts, the Policy Engine round trip (enhanced handler only),
the generated SLA violation id and the month-boundary reset instant. -/
structure ConsumeEnv where
  now : Int
  request_id : Nat
  record_id : Nat
  outcomes : Nat → UpstreamOutcome
  policy : PolicyEngineOutcome
  sla_violation_id : Nat
  quota_reset_at : Int

/-- The api-key lookup shared by both handlers: the newest (greatest
created_at) unrevoked key of this consumer for this service (ORDER BY
created_at DESC LIMIT 1). -/
def lookup_api_key (keys : List ApiKey) (consumer_id service_id : Nat) :
    Option ApiKey :=
  (keys.filter (fun k =>
      k.consumer_id == consumer_id && k.service_id == service_id &&
      k.revoked_at.isNone)).foldl
    (fun best k =>
      match best with
      | none => some k
      | some b => if k.created_at > b.created_at then some k else some b)
    none

/-- handlers/consumption.rs consume_service: validate the body, resolve
the service and the api key, check the rate limit, check the quota,
dispatch upstream through the retrying router, compute the cost, then
record usage and bump the quota (both best-effort) and answer 200. -/
def consume_service (st : GatewayState) (service_id consumer_id : Nat)
    (request : ConsumeRequest) (env : ConsumeEnv) :
    Except Rejection ConsumeResponse × GatewayState :=
  if request.prompt.length < 1 then
    (.error (400, "Invalid request"), st)
  else
    match st.services.find? (fun s => s.id == service_id) with
    | none => (.error (404, "Service not found"), st)
    | some service =>
        match lookup_api_key st.api_keys consumer_id service_id with
        | none => (.error (403, "No valid API key found for this service"), st)
        | some api_key =>
            let tier := api_key.get_tier
            let rl := check_rate_limit st.rl_store consumer_id service_id tier env.now
            let st := { st with rl_store := rl.2 }
            if rl.1.exceeded then
              (.error (429, "Rate limit exceeded"), st)
            else
              let quota := check_quota st.quota_store consumer_id service_id tier
                env.quota_reset_at
              if quota.exceeded then
                (.error (402, "Quota exceeded"), st)
              else
                match (route_with_circuit_breaker env.outcomes).result with
                | .error _ => (.error (502, "Service error"), st)
                | .ok (response_data, usage, latency_ms) =>
                    match calculate_cost service.pricing usage with
                    | .error _ => (.error (500, "Cost calculation failed"), st)
                    | .ok cost =>
                        let st :=
                          match record_usage st env.record_id env.request_id
                              service_id consumer_id usage (latency_ms : Int)
                              "success" none env.now with
                          | .ok r => r.2
                          | .error _ => st
                        let qs := update_quota st.quota_store consumer_id service_id usage
                        let st := { st with quota_store := qs }
                        (.ok { request_id := env.request_id
                               response := response_data
                               usage := usage
                               cost := cost
                               latency_ms := latency_ms }, st)

/-- The analytics events the enhanced handler emits when the policy
stage rejects: one PolicyViolation event per reported violation. -/
def policy_violation_events (service_id consumer_id : Nat)
    (violations : List PolicyViolation) : List AnalyticsEvent :=
  violations.map (fun v =>
    .policyViolation service_id consumer_id v.policy_id v.policy_name
      v.severity v.message)

/-- handlers/consumption_enhanced.rs consume_service_enhanced: resolve
the service and the api key, validate with the Policy Engine (rejections
emit one analytics event per violation), check the rate limit and the
quota (rejections emit analytics events), dispatch upstream, compute the
cost, then run the best-effort stages (usage record, quota bump, SLA
check, consumption analytics event) and answer 200. -/
def consume_service_enhanced (st : GatewayState) (service_id consumer_id : Nat)
    (_request : ConsumeRequest) (env : ConsumeEnv) :
    Except Rejection ConsumeResponse × GatewayState :=
  match st.services.find? (fun s => s.id == service_id) with
  | none => (.error (404, "Service not found"), st)
  | some service =>
      match lookup_api_key st.api_keys consumer_id service_id with
      | none => (.error (403, "No valid API key found for this service"), st)
      | some api_key =>
          let tier := api_key.get_tier
          match validate_consumption env.policy with
          | .error _ => (.error (500, "Policy validation error"), st)
          | .ok policy_validation =>
              if !policy_validation.allowed then
                let events := policy_violation_events service_id consumer_id
                  policy_validation.violations
                (.error (403, "Policy violation"),
                 { st with analytics := st.analytics ++ events })
              else
                let rl := check_rate_limit st.rl_store consumer_id service_id tier env.now
                let st := { st with rl_store := rl.2 }
                if rl.1.exceeded then
                  let ev : AnalyticsEvent := .rateLimitExceeded service_id consumer_id
                    tier.toDbString tier.rate_limit
                  (.error (429, "Rate limit exceeded"),
                   { st with analytics := st.analytics ++ [ev] })
                else
                  let quota := check_quota st.quota_store consumer_id service_id tier
                    env.quota_reset_at
                  if quota.exceeded then
                    let ev : AnalyticsEvent := .quotaExceeded service_id consumer_id
                      tier.toDbString quota.used_tokens quota.total_tokens
                    (.error (402, "Quota exceeded"),
                     { st with analytics := st.analytics ++ [ev] })
                  else
                    match (route_with_circuit_breaker env.outcomes).result with
                    | .error _ => (.error (502, "Service error"), st)
                    | .ok (response_data, usage, latency_ms) =>
                        match calculate_cost service.pricing usage with
                        | .error _ => (.error (500, "Cost calculation failed"), st)
                        | .ok cost =>
                            let st :=
                              match record_usage st env.record_id env.request_id
                                  service_id consumer_id usage (latency_ms : Int)
                                  "success" none env.now with
                              | .ok r => r.2
                              | .error _ => st
                            let qs := update_quota st.quota_store consumer_id
                              service_id usage
                            let st := { st with quota_store := qs }
                            let st := (check_sla_violation st service latency_ms
                              env.sla_violation_id env.now).2
                            let ev : AnalyticsEvent := .consumption env.request_id
                              service_id consumer_id latency_ms usage cost "success"
                            let st := { st with analytics := st.analytics ++ [ev] }
                            (.ok { request_id := env.request_id
                                   response := response_data
                                   usage := usage
                                   cost := cost
                                   latency_ms := latency_ms }, st)

/-! ### Spec-side predicates and concrete fixtures -/

/-- The validity predicate as the spec states it: revoked_at empty and
(expires_at empty or strictly in the future). -/
def key_valid_spec (k : ApiKey) (now : Int) : Prop :=
  k.revoked_at = none ∧
    match k.expires_at with
    | none => True
    | some expires_at => now < expires_at

/-- The per-call amount the spec pricing table assigns, given the first
configured rate. -/
def cost_amount_spec (p : PricingModel) (u : UsageInfo) (r : PricingRate) : ℚ :=
  if p.model = "per-token" then (u.total_tokens : ℚ) * r.rate
  else if p.model = "per-request" then r.rate
  else 0

/-- The statuses the spec retry policy declares terminal: 4xx other
than 429. -/
def terminal_status_spec (status : Nat) : Prop :=
  400 ≤ status ∧ status < 500 ∧ status ≠ 429

/-- n sequential rate-limit checks for consumer 0 on service 1, Basic
tier, all at t = 0, starting from the given store; returns the statuses
in call order. -/
def runChecks : RlStore → Nat → List RateLimitStatus
  | _, 0 => []
  | store, n + 1 =>
      let out := check_rate_limit store 0 1 .basic 0
      out.1 :: runChecks out.2 n

/-- The store after n of the checks of runChecks. -/
def iterStore : RlStore → Nat → RlStore
  | store, 0 => store
  | store, n + 1 => iterStore (check_rate_limit store 0 1 .basic 0).2 n

/-- A key expiring exactly at t = 5, used at the expiry boundary. -/
def boundaryKey : ApiKey :=
  { id := 0
    key_hash := ⟨0, ""⟩
    consumer_id := 0
    service_id := 0
    tier := "basic"
    created_at := 0
    expires_at := some 5
    revoked_at := none
    metadata := .obj [] }

/-- A subscription-priced service fixture. -/
def sampleService : Service :=
  { id := 1
    name := "svc"
    version := "1.0"
    endpoint := "http://upstream.example"
    status := "active"
    pricing := { model := "subscription", rates := [] }
    sla := { availability := 99/100, max_latency_ms := 100, timeout_ms := 100 }
    created_at := 0 }

/-- A live Basic-tier key of consumer 2 for service 1. -/
def sampleKey : ApiKey :=
  { id := 5
    key_hash := ⟨1, "llm_mk_SAMPLE"⟩
    consumer_id := 2
    service_id := 1
    tier := "basic"
    created_at := 0
    expires_at := none
    revoked_at := none
    metadata := .obj [] }

/-- An initial gateway state holding the sample service and key, with
empty tables and caches. -/
def sampleState : GatewayState :=
  { services := [sampleService]
    api_keys := [sampleKey]
    usage_records := []
    sla_violations := []
    rl_store := fun _ => none
    quota_store := fun _ => none
    analytics := [] }

/-- A well-formed consume request fixture. -/
def sampleRequest : ConsumeRequest :=
  { prompt := "hello"
    max_tokens := some 32
    temperature := 7/10
    metadata := .null }

/-- An upstream body fixture carrying a usage object. -/
def sampleBody : Json :=
  .obj [("usage", .obj [("prompt_tokens", .num (.uint 3)),
                        ("completion_tokens", .num (.uint 4))])]

/-- A per-request environment fixture in which every stage succeeds. -/
def sampleEnv : ConsumeEnv :=
  { now := 0
    request_id := 99
    record_id := 50
    outcomes := fun _ => .response 200 "" (some sampleBody) 5
    policy := .response 200 (.ok { allowed := true, reason := none,
                                   violations := [], metadata := .null })
    sla_violation_id := 60
    quota_reset_at := 1000 }

/-- The response the sample consume run produces. -/
def sampleResponse : ConsumeResponse :=
  { request_id := 99
    response := sampleBody
    usage := ⟨3, 4, 7⟩
    cost := { amount := 0
              currency := "USD"
              breakdown := .obj [("model", .str "subscription"),
                                 ("note", .str "Pre-paid subscription")] }
    latency_ms := 5 }

/-! ### Theorems -/

/-- Helper: behaviour of one script execution on a present bucket with
non-negative stored tokens, for one requested token. -/
theorem rateLimitScript_spec (capacity rate : Nat) (now : Int) (b : Bucket)
    (ht : 0 ≤ b.tokens) (refilled : Int)
    (href : refilled = min (capacity : Int)
      (b.tokens + max 0 (now - b.last_update) * (rate : Int))) :
    (rateLimitScript capacity rate now 1 (some b)).2.tokens =
      (if 1 ≤ refilled then refilled - 1 else refilled) ∧
    0 ≤ (rateLimitScript capacity rate now 1 (some b)).2.tokens ∧
    (rateLimitScript capacity rate now 1 (some b)).2.tokens ≤ (capacity : Int) ∧
    (rateLimitScript capacity rate now 1 (some b)).2.last_update = now ∧
    ((rateLimitScript capacity rate now 1 (some b)).1.1 = true ↔ 1 ≤ refilled) := by
  have hnn : 0 ≤ max 0 (now - b.last_update) * (rate : Int) :=
    mul_nonneg (le_max_left 0 _) (Int.natCast_nonneg rate)
  have hcap : (0 : Int) ≤ (capacity : Int) := Int.natCast_nonneg capacity
  subst href
  simp only [rateLimitScript]
  split
  · rename_i h
    refine ⟨?_, ?_, ?_, rfl, ?_⟩
    · dsimp only
    · dsimp only
      omega
    · dsimp only
      omega
    · simp [h]
  · rename_i h
    refine ⟨?_, ?_, ?_, rfl, ?_⟩
    · dsimp only
    · dsimp only
      omega
    · dsimp only
      omega
    · simp [h]

/-- C2: on a stored bucket (tokens, last_update) with tier capacity and
rate at time now, check_rate_limit stores tokens equal to refilled - 1
when allowed and refilled when denied, where refilled =
min(capacity, tokens + max(0, now - last_update) * rate); the stored
tokens are nonnegative and at most capacity, the stored last_update is
now, and the request is allowed (status not exceeded) iff refilled ≥ 1. -/
theorem check_rate_limit_bucket_spec (store : RlStore)
    (consumer_id service_id : Nat) (tier : ServiceTier) (now : Int) (b : Bucket)
    (hb : store (consumer_id, service_id) = some b) (ht : 0 ≤ b.tokens)
    (refilled : Int)
    (href : refilled = min ((tier.burst_capacity : Nat) : Int)
      (b.tokens + max 0 (now - b.last_update) * ((tier.rate_limit : Nat) : Int))) :
    ∃ b2, (check_rate_limit store consumer_id service_id tier now).2
        (consumer_id, service_id) = some b2 ∧
      b2.tokens = (if 1 ≤ refilled then refilled - 1 else refilled) ∧
      0 ≤ b2.tokens ∧ b2.tokens ≤ (tier.burst_capacity : Int) ∧
      b2.last_update = now ∧
      ((check_rate_limit store consumer_id service_id tier now).1.exceeded = false
        ↔ 1 ≤ refilled) := by
  have hscr := rateLimitScript_spec tier.burst_capacity tier.rate_limit now b ht
    refilled href
  refine ⟨(rateLimitScript tier.burst_capacity tier.rate_limit now 1 (some b)).2,
    ?_, hscr.1, hscr.2.1, hscr.2.2.1, hscr.2.2.2.1, ?_⟩
  · simp [check_rate_limit, hb]
  · have hexc : (check_rate_limit store consumer_id service_id tier now).1.exceeded
        = !(rateLimitScript tier.burst_capacity tier.rate_limit now 1 (some b)).1.1 := by
      simp [check_rate_limit, hb]
    rw [hexc, Bool.not_eq_false']
    simpa using hscr.2.2.2.2

/-- Witness for C2: a Basic-tier bucket holding 5 tokens last updated
at t = 0, checked at t = 3, refills to 20 and is allowed, storing 19. -/
theorem check_rate_limit_bucket_spec_witness :
    ∃ b2, (check_rate_limit
        (fun k => if k = ((0 : Nat), (1 : Nat)) then some ⟨5, 0⟩ else none)
        0 1 .basic 3).2 (0, 1) = some b2 ∧
      b2.tokens = 19 ∧ b2.last_update = 3 := by
  obtain ⟨b2, h1, h2, _, _, h5, _⟩ := check_rate_limit_bucket_spec
    (fun k => if k = ((0 : Nat), (1 : Nat)) then some ⟨5, 0⟩ else none)
    0 1 .basic 3 ⟨5, 0⟩ rfl (by decide) 20 (by decide)
  refine ⟨b2, h1, ?_, h5⟩
  rw [h2]
  decide

/-- Helper: the last of n + 1 sequential checks is the check against
the store produced by the first n. -/
theorem runChecks_getLast (n : Nat) (store : RlStore) :
    (runChecks store (n + 1)).getLast? =
      some (check_rate_limit (iterStore store n) 0 1 .basic 0).1 := by
  induction n generalizing store with
  | zero => rfl
  | succ m ih =>
      show (_ :: runChecks _ (m + 1)).getLast? = _
      rw [show runChecks (check_rate_limit store 0 1 .basic 0).2 (m + 1) =
        _ :: runChecks _ m from rfl]
      rw [List.getLast?_cons_cons]
      rw [show (_ :: runChecks _ m) = runChecks (check_rate_limit store 0 1 .basic 0).2 (m + 1) from rfl]
      exact ih _

set_option maxRecDepth 100000 in
/-- C6: starting from an absent Basic-tier bucket (initialized at
capacity 20, rate 10 per second), 21 checks all at t = 0 yield: the
first 20 allowed and the 21st denied with retry_after_seconds = 1. -/
theorem fresh_basic_bucket_21_checks :
    (runChecks (fun _ => none) 21).length = 21 ∧
    ((runChecks (fun _ => none) 21).take 20).all (fun s => !s.exceeded) = true ∧
    (runChecks (fun _ => none) 21).getLast? =
      some ⟨true, some 1, 10, 0, 60⟩ := by
  refine ⟨by decide, by decide, ?_⟩
  rw [show (21 : Nat) = 20 + 1 from rfl, runChecks_getLast]
  have hb : iterStore (fun _ => none) 20 (0, 1) = some ⟨0, 0⟩ := by decide
  have hceil : (⌈((1 : ℚ)) / 10⌉ : ℤ) = 1 := by
    rw [Int.ceil_eq_iff]; norm_num
  simp only [check_rate_limit, rateLimitScript, hb, ServiceTier.rate_limit,
    ServiceTier.burst_capacity]
  norm_num
  rw [hceil]
  rfl

/-- C7: calculate_cost follows the pricing table: per-token charges
total_tokens times the first rate, per-request charges the first rate,
subscription charges 0, and any other discriminant charges 0 with a
breakdown marking the unknown pricing model; in particular per-token
rate 1/10000 on 250 total tokens yields amount 1/40 (0.0250) in USD
with breakdown total_tokens 250 and rate_per_token 1/10000. -/
theorem calculate_cost_follows_pricing_table :
    (∀ (p : PricingModel) (u : UsageInfo) (r : PricingRate)
        (rs : List PricingRate), p.rates = r :: rs →
      ∃ c, calculate_cost p u = .ok c ∧ c.amount = cost_amount_spec p u r ∧
        c.currency = "USD" ∧
        (p.model ≠ "per-token" → p.model ≠ "per-request" →
          p.model ≠ "subscription" →
          c.breakdown = .obj [("error", .str "Unknown pricing model")])) ∧
    (∃ c, calculate_cost ⟨"per-token", [⟨"basic", 1/10000, "token"⟩]⟩
        ⟨100, 150, 250⟩ = .ok c ∧
      c.amount = 1/40 ∧ c.currency = "USD" ∧
      c.breakdown.get "total_tokens" = some (.num (.uint 250)) ∧
      c.breakdown.get "rate_per_token" = some (.num (.float (1/10000)))) := by
  constructor
  · intro p u r rs hr
    unfold calculate_cost cost_amount_spec
    rw [hr]
    split_ifs with h1 h2 h3
    · exact ⟨_, rfl, rfl, rfl, fun hn _ _ => absurd h1 hn⟩
    · exact ⟨_, rfl, rfl, rfl, fun _ hn _ => absurd h2 hn⟩
    · exact ⟨_, rfl, rfl, rfl, fun _ _ hn => absurd h3 hn⟩
    · exact ⟨_, rfl, rfl, rfl, fun _ _ _ => rfl⟩
  · refine ⟨_, rfl, by norm_num, rfl, rfl, rfl⟩

/-- Witness for C7: an unknown pricing discriminant charges 0 and marks
the breakdown. -/
theorem calculate_cost_follows_pricing_table_witness :
    ∃ c, calculate_cost ⟨"flat-fee", [⟨"basic", 2, "token"⟩]⟩ ⟨1, 1, 2⟩ = .ok c ∧
      c.amount = 0 ∧ c.breakdown = .obj [("error", .str "Unknown pricing model")] := by
  obtain ⟨c, hc, ha, _, hb⟩ :=
    calculate_cost_follows_pricing_table.1 ⟨"flat-fee", [⟨"basic", 2, "token"⟩]⟩
      ⟨1, 1, 2⟩ ⟨"basic", 2, "token"⟩ [] rfl
  refine ⟨c, hc, ?_, hb (by decide) (by decide) (by decide)⟩
  rw [ha]
  rfl

/-- C8 counterexample: a key expiring exactly at the current instant
(expires_at = now = 5) is accepted by ApiKey::is_valid, while the
claimed characterization (expires_at strictly greater than now)
classifies it invalid, so the claimed iff fails on this key. -/
theorem is_valid_boundary_counterexample :
    boundaryKey.is_valid 5 = true ∧ ¬ key_valid_spec boundaryKey 5 := by
  constructor
  · rfl
  · intro h
    have h2 : (5 : Int) < 5 := h.2
    omega

/-- C8 amended: a key is valid iff revoked_at is empty and expires_at
is empty or at least now (the code keeps a key valid through the exact
expiry instant); and validate_key returns a record only when that
record is valid. -/
theorem is_valid_characterization (k : ApiKey) (now : Int) :
    (k.is_valid now = true ↔
      (k.revoked_at = none ∧
        match k.expires_at with
        | none => True
        | some expires_at => now ≤ expires_at)) ∧
    (∀ (db : List ApiKey) (api_key : String) (fresh_salt : Nat) (r : ApiKey),
      validate_key db api_key fresh_salt now = .ok r → r.is_valid now = true) := by
  constructor
  · cases hrev : k.revoked_at <;> cases hexp : k.expires_at <;>
      simp [ApiKey.is_valid, hrev, hexp]
  · intro db api_key fresh_salt r hv
    simp only [validate_key] at hv
    rcases hfind : db.find? (fun k0 => k0.key_hash == hash_key api_key fresh_salt)
      with _ | rec
    · rw [hfind] at hv
      simp at hv
    · rw [hfind] at hv
      dsimp only at hv
      by_cases hval : rec.is_valid now = true
      · rw [if_pos hval] at hv
        injection hv with h
        rw [← h]
        exact hval
      · rw [if_neg hval] at hv
        simp at hv

/-- Witness for C8: the characterization applied to a live unexpired
key, and validate_key succeeding when the fresh salt coincides with the
stored one returns a valid record. -/
theorem is_valid_characterization_witness :
    sampleKey.is_valid 0 = true := by
  have h := (is_valid_characterization sampleKey 0).2
    [sampleKey] "llm_mk_SAMPLE" 1 sampleKey rfl
  exact h

/-- C9 counterexample: when the transport to the Policy Engine fails,
validate_consumption propagates an error instead of returning the
claimed fail-open success. -/
theorem validate_consumption_transport_counterexample :
    validate_consumption (.transportError "connection refused") =
      .error "Failed to send request to Policy Engine" := rfl

/-- C9 amended: when the Policy Engine replies with any non-success
HTTP status (5xx included), validate_consumption returns the successful
fail-open response with allowed = true, no violations and a
failover = true marker in its metadata; transport failures propagate as
errors (previous theorem). -/
theorem validate_consumption_fail_open (status : Nat)
    (parsed : Except String PolicyValidationResponse)
    (h : is_success_status status = false) :
    validate_consumption (.response status parsed) = .ok failOpenPolicyResponse ∧
    failOpenPolicyResponse.allowed = true ∧
    failOpenPolicyResponse.violations = [] ∧
    failOpenPolicyResponse.metadata.get "failover" = some (.bool true) := by
  refine ⟨?_, rfl, rfl, rfl⟩
  unfold validate_consumption
  dsimp only
  rw [h]
  rfl

/-- Witness for C9: a 503 from the Policy Engine produces the fail-open
response. -/
theorem validate_consumption_fail_open_witness :
    validate_consumption (.response 503 (.error "unavailable")) =
      .ok failOpenPolicyResponse :=
  (validate_consumption_fail_open 503 (.error "unavailable") rfl).1

/-- C10: whenever the upstream body has a "usage" object, extract_usage
does not run the length estimator; a prompt_tokens or completion_tokens
entry that is absent or not an unsigned integer defaults to 0, and an
absent or non-integer total_tokens defaults to the (u32) sum of the two;
the estimator runs exactly when the "usage" object is absent (and
extract_usage is total, so it never errors). -/
theorem extract_usage_with_usage_object :
    (∀ resp usage, resp.get "usage" = some usage →
      (extract_usage resp).2 = false ∧
      ((usage.get "prompt_tokens").bind Json.as_u64 = none →
        (extract_usage resp).1.prompt_tokens = 0) ∧
      ((usage.get "completion_tokens").bind Json.as_u64 = none →
        (extract_usage resp).1.completion_tokens = 0) ∧
      ((usage.get "total_tokens").bind Json.as_u64 = none →
        (extract_usage resp).1.total_tokens =
          u32cast ((extract_usage resp).1.prompt_tokens +
            (extract_usage resp).1.completion_tokens))) ∧
    (∀ resp, (extract_usage resp).2 = true ↔ resp.get "usage" = none) := by
  constructor
  · intro resp usage hu
    unfold extract_usage
    rw [hu]
    refine ⟨rfl, ?_, ?_, ?_⟩
    · intro hp
      dsimp only
      rw [hp]
      rfl
    · intro hc
      dsimp only
      rw [hc]
      rfl
    · intro ht
      dsimp only
      rw [ht]
      simp [u32cast, Nat.mod_mod_of_dvd]
  · intro resp
    unfold extract_usage
    cases hu : resp.get "usage" with
    | some u => simp
    | none => simp

/-- Witness for C10: a usage object with a float prompt_tokens and no
total_tokens yields prompt 0, completion 5, total 5 and no estimator. -/
theorem extract_usage_with_usage_object_witness :
    (extract_usage (.obj [("usage", .obj
      [("prompt_tokens", .num (.float (7/2))),
       ("completion_tokens", .num (.uint 5))])])).2 = false ∧
    (extract_usage (.obj [("usage", .obj
      [("prompt_tokens", .num (.float (7/2))),
       ("completion_tokens", .num (.uint 5))])])).1.prompt_tokens = 0 := by
  have h := extract_usage_with_usage_object.1
    (.obj [("usage", .obj [("prompt_tokens", .num (.float (7/2))),
                           ("completion_tokens", .num (.uint 5))])])
    (.obj [("prompt_tokens", .num (.float (7/2))),
           ("completion_tokens", .num (.uint 5))]) rfl
  exact ⟨h.1, h.2.1 rfl⟩

/-- C3: validating the plaintext returned by a fresh Generate fails
even while the key is neither expired nor revoked, because validate_key
re-hashes the candidate under a freshly drawn salt and looks the record
up by exact hash equality: whenever the validation salt differs from
the generation salt (and the fresh hash collides with no other stored
row), the lookup finds nothing and validate_key answers the
unknown-key error. -/
theorem validate_generated_key_fails (db : List ApiKey) (consumer_id : Nat)
    (request : CreateApiKeyRequest) (key_body : String)
    (gen_salt fresh_salt new_id : Nat) (now : Int)
    (resp : ApiKeyResponse) (db2 : List ApiKey)
    (hgen : create_api_key db consumer_id request key_body gen_salt new_id now
      = .ok (resp, db2))
    (hsalt : fresh_salt ≠ gen_salt)
    (hdb : ∀ k ∈ db, k.key_hash ≠ hash_key resp.key fresh_salt) :
    validate_key db2 resp.key fresh_salt now = .error "Invalid API key" := by
  simp only [create_api_key] at hgen
  rcases hsid : parse_uuid request.service_id with _ | service_id
  · rw [hsid] at hgen
    simp at hgen
  · rw [hsid] at hgen
    dsimp only at hgen
    injection hgen with hpair
    injection hpair with hresp hdb2
    simp only [validate_key]
    have hfind : db2.find?
        (fun k => k.key_hash == hash_key resp.key fresh_salt) = none := by
      rw [List.find?_eq_none]
      intro k hk
      rw [← hdb2] at hk
      rcases List.mem_append.1 hk with hmem | hmem
      · simpa using hdb k hmem
      · have hk2 : k.key_hash = ⟨gen_salt, generate_key key_body⟩ := by
          rcases List.mem_singleton.1 hmem with rfl
          rfl
        simp only [hk2]
        have : (⟨gen_salt, generate_key key_body⟩ : PhcHash) ≠
            hash_key resp.key fresh_salt := by
          intro hcontra
          have hs : gen_salt = fresh_salt := congrArg PhcHash.salt hcontra
          exact hsalt hs.symm
        simpa using this
    rw [hfind]

/-- Witness for C3: a key generated into an empty table with salt 3 is
rejected by a validation drawing salt 4. -/
theorem validate_generated_key_fails_witness :
    validate_key
      [{ id := 10, key_hash := ⟨3, "llm_mk_BODY"⟩, consumer_id := 1,
         service_id := 7, tier := "basic", created_at := 0,
         expires_at := none, revoked_at := none, metadata := .obj [] }]
      "llm_mk_BODY" 4 0 = .error "Invalid API key" :=
  validate_generated_key_fails [] 1 ⟨"7", .basic, none⟩ "BODY" 3 4 10 0
    ⟨10, "llm_mk_BODY", 7, .basic, 0, none⟩
    [⟨10, ⟨3, "llm_mk_BODY"⟩, 1, 7, "basic", 0, none, none, .obj []⟩]
    (by rfl) (by decide) (fun k hk => absurd hk (List.not_mem_nil k))

/-- C4 counterexample: a 400 response — terminal under the claimed
policy, being a 4xx other than 429 — is nevertheless retried: the
router makes all 3 attempts (sleeping 100 ms and 200 ms) instead of
stopping after the first. -/
theorem route_terminal_4xx_retried_counterexample :
    (route_with_circuit_breaker
      (fun _ => .response 400 "Bad Request" none 0)).attempts = 3 ∧
    (route_with_circuit_breaker
      (fun _ => .response 400 "Bad Request" none 0)).sleeps = [100, 200] ∧
    terminal_status_spec 400 := by
  refine ⟨by decide, by decide, by decide, by decide, by decide⟩

/-- C4 amended: the router makes at most 3 attempts with backoff
100 * 2 ^ (k - 1) ms between attempts k and k + 1, and every failed
attempt — transport error or any non-success status, 4xx other than
429 included — is retried while the attempt budget lasts; the call
succeeds iff one of the first 3 attempts succeeds. -/
theorem route_retry_budget (outcomes : Nat → UpstreamOutcome) :
    1 ≤ (route_with_circuit_breaker outcomes).attempts ∧
    (route_with_circuit_breaker outcomes).attempts ≤ 3 ∧
    (route_with_circuit_breaker outcomes).sleeps =
      (List.range ((route_with_circuit_breaker outcomes).attempts - 1)).map
        (fun i => 100 * 2 ^ i) ∧
    (∀ k, 1 ≤ k → k < (route_with_circuit_breaker outcomes).attempts →
      ∃ e, route_request (outcomes k) = .error e) ∧
    ((∃ v, (route_with_circuit_breaker outcomes).result = .ok v) ↔
      (∃ k v, 1 ≤ k ∧ k ≤ 3 ∧ route_request (outcomes k) = .ok v)) := by
  unfold route_with_circuit_breaker
  rcases h1 : route_request (outcomes 1) with e1 | v1
  · rcases h2 : route_request (outcomes 2) with e2 | v2
    · rcases h3 : route_request (outcomes 3) with e3 | v3
      · dsimp only
        refine ⟨by omega, by omega, by decide, ?_, ?_⟩
        · intro k hk1 hk2
          have hk : k = 1 ∨ k = 2 := by omega
          rcases hk with rfl | rfl
          · exact ⟨e1, h1⟩
          · exact ⟨e2, h2⟩
        · constructor
          · rintro ⟨v, hv⟩
            exact absurd hv (by simp)
          · rintro ⟨k, v, hk1, hk3, hv⟩
            have hk : k = 1 ∨ k = 2 ∨ k = 3 := by omega
            rcases hk with rfl | rfl | rfl
            · rw [h1] at hv
              exact absurd hv (by simp)
            · rw [h2] at hv
              exact absurd hv (by simp)
            · rw [h3] at hv
              exact absurd hv (by simp)
      · dsimp only
        refine ⟨by omega, by omega, by decide, ?_, ?_⟩
        · intro k hk1 hk2
          have hk : k = 1 ∨ k = 2 := by omega
          rcases hk with rfl | rfl
          · exact ⟨e1, h1⟩
          · exact ⟨e2, h2⟩
        · exact ⟨fun _ => ⟨3, v3, by omega, by omega, h3⟩, fun _ => ⟨v3, rfl⟩⟩
    · dsimp only
      refine ⟨by omega, by omega, by decide, ?_, ?_⟩
      · intro k hk1 hk2
        have hk : k = 1 := by omega
        rcases hk with rfl
        exact ⟨e1, h1⟩
      · exact ⟨fun _ => ⟨2, v2, by omega, by omega, h2⟩, fun _ => ⟨v2, rfl⟩⟩
  · dsimp only
    refine ⟨by omega, by omega, by decide, ?_, ?_⟩
    · intro k hk1 hk2
      omega
    · exact ⟨fun _ => ⟨1, v1, by omega, by omega, h1⟩, fun _ => ⟨v1, rfl⟩⟩

/-- Witness for C4: with every attempt failing in transport, the router
makes exactly 3 attempts. -/
theorem route_retry_budget_witness :
    1 ≤ (route_with_circuit_breaker
      (fun _ => UpstreamOutcome.transportError "connection reset")).attempts :=
  (route_retry_budget (fun _ => UpstreamOutcome.transportError "connection reset")).1

/-- C5: the routing path of the consumption service holds no circuit
breaker state at all: whatever the history of failures, every call
dispatches upstream at least once (never the claimed immediate
service-unavailable rejection with retry_after = 30 while Open), and a
persistently failing upstream (502 on every attempt) is dispatched to
3 times on every single call. -/
theorem route_with_circuit_breaker_always_dispatches :
    (∀ outcomes : Nat → UpstreamOutcome,
      1 ≤ (route_with_circuit_breaker outcomes).attempts) ∧
    (route_with_circuit_breaker
      (fun _ => .response 502 "Bad Gateway" none 0)).attempts = 3 := by
  constructor
  · intro outcomes
    unfold route_with_circuit_breaker
    rcases route_request (outcomes 1) with _ | _
    · rcases route_request (outcomes 2) with _ | _
      · rcases route_request (outcomes 3) with _ | _ <;> dsimp only <;> decide
      · dsimp only
        decide
    · dsimp only
      decide
  · decide

/-- Helper: the per-branch usage-record effect of consume_service:
every rejection leaves usage_records unchanged, every 200 appends
exactly one record carrying the request_id of the response. -/
theorem consume_service_records (st : GatewayState) (service_id consumer_id : Nat)
    (request : ConsumeRequest) (env : ConsumeEnv) :
    ∀ res st2, consume_service st service_id consumer_id request env = (res, st2) →
      match res with
      | .error _ => st2.usage_records = st.usage_records
      | .ok resp => ∃ rec, st2.usage_records = st.usage_records ++ [rec] ∧
          rec.request_id = resp.request_id := by
  intro res st2 h
  unfold consume_service at h
  by_cases hp : request.prompt.length < 1
  · rw [if_pos hp] at h
    injection h with hres hst
    subst hres
    subst hst
    exact rfl
  · rw [if_neg hp] at h
    rcases hfind : st.services.find? (fun s => s.id == service_id) with _ | service
    · rw [hfind] at h
      dsimp only at h
      injection h with hres hst
      subst hres
      subst hst
      exact rfl
    · rw [hfind] at h
      dsimp only at h
      rcases hkey : lookup_api_key st.api_keys consumer_id service_id with _ | api_key
      · rw [hkey] at h
        dsimp only at h
        injection h with hres hst
        subst hres
        subst hst
        exact rfl
      · rw [hkey] at h
        dsimp only at h
        by_cases hrl : (check_rate_limit st.rl_store consumer_id service_id
            api_key.get_tier env.now).1.exceeded = true
        · rw [if_pos hrl] at h
          injection h with hres hst
          subst hres
          subst hst
          exact rfl
        · rw [if_neg hrl] at h
          by_cases hq : (check_quota st.quota_store consumer_id service_id
              api_key.get_tier env.quota_reset_at).exceeded = true
          · rw [if_pos hq] at h
            injection h with hres hst
            subst hres
            subst hst
            exact rfl
          · rw [if_neg hq] at h
            rcases hroute : (route_with_circuit_breaker env.outcomes).result
              with e | ⟨response_data, usage, latency_ms⟩
            · rw [hroute] at h
              dsimp only at h
              injection h with hres hst
              subst hres
              subst hst
              exact rfl
            · rw [hroute] at h
              dsimp only at h
              rcases hcost : calculate_cost service.pricing usage with e | cost
              · rw [hcost] at h
                dsimp only at h
                injection h with hres hst
                subst hres
                subst hst
                exact rfl
              · rw [hcost] at h
                dsimp only at h
                rcases hrec : record_usage { st with rl_store :=
                    (check_rate_limit st.rl_store consumer_id service_id
                      api_key.get_tier env.now).2 }
                    env.record_id env.request_id service_id consumer_id usage
                    (latency_ms : Int) "success" none env.now with e | ⟨rec, st3⟩
                · exfalso
                  unfold record_usage at hrec
                  rw [show ({ st with rl_store :=
                      (check_rate_limit st.rl_store consumer_id service_id
                        api_key.get_tier env.now).2 } : GatewayState).services
                    = st.services from rfl, hfind] at hrec
                  dsimp only at hrec
                  rw [hcost] at hrec
                  dsimp only at hrec
                  exact absurd hrec (by simp)
                · have hrecConsume := hrec
                  unfold record_usage at hrec
                  rw [show ({ st with rl_store :=
                      (check_rate_limit st.rl_store consumer_id service_id
                        api_key.get_tier env.now).2 } : GatewayState).services
                    = st.services from rfl, hfind] at hrec
                  dsimp only at hrec
                  rw [hcost] at hrec
                  dsimp only at hrec
                  injection hrec with hpair
                  injection hpair with hrec2 hst3
                  rw [hrecConsume] at h
                  dsimp only at h
                  injection h with hres hst
                  subst hres
                  subst hst
                  refine ⟨rec, ?_, ?_⟩
                  · dsimp only
                    rw [← hst3]
                    dsimp only
                    rw [hrec2]
                  · rw [← hrec2]

/-- Helper: the SLA check never touches the usage_records table. -/
theorem check_sla_violation_usage_records (st : GatewayState) (service : Service)
    (latency_ms violation_id : Nat) (now : Int) :
    ((check_sla_violation st service latency_ms violation_id now).2).usage_records
      = st.usage_records := by
  unfold check_sla_violation
  split
  · rfl
  · rfl

/-- Helper: the per-branch usage-record effect of
consume_service_enhanced: every rejection leaves usage_records
unchanged, every 200 appends exactly one record carrying the
request_id of the response. -/
theorem consume_service_enhanced_records (st : GatewayState)
    (service_id consumer_id : Nat) (request : ConsumeRequest) (env : ConsumeEnv) :
    ∀ res st2,
      consume_service_enhanced st service_id consumer_id request env = (res, st2) →
      match res with
      | .error _ => st2.usage_records = st.usage_records
      | .ok resp => ∃ rec, st2.usage_records = st.usage_records ++ [rec] ∧
          rec.request_id = resp.request_id := by
  intro res st2 h
  unfold consume_service_enhanced at h
  rcases hfind : st.services.find? (fun s => s.id == service_id) with _ | service
  · rw [hfind] at h
    dsimp only at h
    injection h with hres hst
    subst hres
    subst hst
    exact rfl
  · rw [hfind] at h
    dsimp only at h
    rcases hkey : lookup_api_key st.api_keys consumer_id service_id with _ | api_key
    · rw [hkey] at h
      dsimp only at h
      injection h with hres hst
      subst hres
      subst hst
      exact rfl
    · rw [hkey] at h
      dsimp only at h
      rcases hpol : validate_consumption env.policy with e | pv
      · rw [hpol] at h
        dsimp only at h
        injection h with hres hst
        subst hres
        subst hst
        exact rfl
      · rw [hpol] at h
        dsimp only at h
        cases hal : pv.allowed
        · have hcond : (!pv.allowed) = true := by rw [hal]; rfl
          rw [if_pos hcond] at h
          injection h with hres hst
          subst hres
          subst hst
          exact rfl
        · have hcond : ¬(!pv.allowed) = true := by simp [hal]
          rw [if_neg hcond] at h
          by_cases hrl : (check_rate_limit st.rl_store consumer_id service_id
              api_key.get_tier env.now).1.exceeded = true
          · rw [if_pos hrl] at h
            injection h with hres hst
            subst hres
            subst hst
            exact rfl
          · rw [if_neg hrl] at h
            by_cases hq : (check_quota st.quota_store consumer_id service_id
                api_key.get_tier env.quota_reset_at).exceeded = true
            · rw [if_pos hq] at h
              injection h with hres hst
              subst hres
              subst hst
              exact rfl
            · rw [if_neg hq] at h
              rcases hroute : (route_with_circuit_breaker env.outcomes).result
                with e | ⟨response_data, usage, latency_ms⟩
              · rw [hroute] at h
                dsimp only at h
                injection h with hres hst
                subst hres
                subst hst
                exact rfl
              · rw [hroute] at h
                dsimp only at h
                rcases hcost : calculate_cost service.pricing usage with e | cost
                · rw [hcost] at h
                  dsimp only at h
                  injection h with hres hst
                  subst hres
                  subst hst
                  exact rfl
                · rw [hcost] at h
                  dsimp only at h
                  rcases hrec : record_usage { st with rl_store :=
                      (check_rate_limit st.rl_store consumer_id service_id
                        api_key.get_tier env.now).2 }
                      env.record_id env.request_id service_id consumer_id usage
                      (latency_ms : Int) "success" none env.now with e | ⟨rec, st3⟩
                  · exfalso
                    unfold record_usage at hrec
                    rw [show ({ st with rl_store :=
                        (check_rate_limit st.rl_store consumer_id service_id
                          api_key.get_tier env.now).2 } : GatewayState).services
                      = st.services from rfl, hfind] at hrec
                    dsimp only at hrec
                    rw [hcost] at hrec
                    dsimp only at hrec
                    exact absurd hrec (by simp)
                  · have hrecConsume := hrec
                    unfold record_usage at hrec
                    rw [show ({ st with rl_store :=
                        (check_rate_limit st.rl_store consumer_id service_id
                          api_key.get_tier env.now).2 } : GatewayState).services
                      = st.services from rfl, hfind] at hrec
                    dsimp only at hrec
                    rw [hcost] at hrec
                    dsimp only at hrec
                    injection hrec with hpair
                    injection hpair with hrec2 hst3
                    rw [hrecConsume] at h
                    dsimp only at h
                    injection h with hres hst
                    subst hres
                    subst hst
                    refine ⟨rec, ?_, ?_⟩
                    · dsimp only
                      rw [check_sla_violation_usage_records]
                      dsimp only
                      rw [← hst3]
                      dsimp only
                      rw [hrec2]
                    · rw [← hrec2]

/-- C1: for both Consume handlers, a 200 appends exactly one
UsageRecord whose request_id equals the request_id of the response,
and a rejection at any stage (validation, unknown service, missing key,
policy, rate limit, quota, upstream dispatch failure or cost failure)
appends none. -/
theorem consume_one_usage_record_per_success (st : GatewayState)
    (service_id consumer_id : Nat) (request : ConsumeRequest) (env : ConsumeEnv) :
    (∀ resp st2,
      consume_service st service_id consumer_id request env = (.ok resp, st2) →
      ∃ rec, st2.usage_records = st.usage_records ++ [rec] ∧
        rec.request_id = resp.request_id) ∧
    (∀ rej st2,
      consume_service st service_id consumer_id request env = (.error rej, st2) →
      st2.usage_records = st.usage_records) ∧
    (∀ resp st2,
      consume_service_enhanced st service_id consumer_id request env
        = (.ok resp, st2) →
      ∃ rec, st2.usage_records = st.usage_records ++ [rec] ∧
        rec.request_id = resp.request_id) ∧
    (∀ rej st2,
      consume_service_enhanced st service_id consumer_id request env
        = (.error rej, st2) →
      st2.usage_records = st.usage_records) := by
  refine ⟨?_, ?_, ?_, ?_⟩
  · intro resp st2 h
    exact consume_service_records st service_id consumer_id request env
      (.ok resp) st2 h
  · intro rej st2 h
    exact consume_service_records st service_id consumer_id request env
      (.error rej) st2 h
  · intro resp st2 h
    exact consume_service_enhanced_records st service_id consumer_id request env
      (.ok resp) st2 h
  · intro rej st2 h
    exact consume_service_enhanced_records st service_id consumer_id request env
      (.error rej) st2 h

/-- Witness for C1: the sample state and environment drive both
handlers to a 200 that appends one record with request_id 99. -/
theorem consume_one_usage_record_per_success_witness :
    (∃ rec, (consume_service sampleState 1 2 sampleRequest sampleEnv).2.usage_records
        = sampleState.usage_records ++ [rec] ∧ rec.request_id = 99) ∧
    (∃ rec, (consume_service_enhanced sampleState 1 2 sampleRequest
        sampleEnv).2.usage_records
        = sampleState.usage_records ++ [rec] ∧ rec.request_id = 99) := by
  constructor
  · have h1 : (consume_service sampleState 1 2 sampleRequest sampleEnv).1
        = .ok sampleResponse := by rfl
    have heq : consume_service sampleState 1 2 sampleRequest sampleEnv
        = (.ok sampleResponse,
           (consume_service sampleState 1 2 sampleRequest sampleEnv).2) := by
      rw [← h1]
    obtain ⟨rec, ha, hb⟩ :=
      (consume_one_usage_record_per_success sampleState 1 2 sampleRequest
        sampleEnv).1 sampleResponse _ heq
    exact ⟨rec, ha, hb.trans rfl⟩
  · have h1 : (consume_service_enhanced sampleState 1 2 sampleRequest sampleEnv).1
        = .ok sampleResponse := by rfl
    have heq : consume_service_enhanced sampleState 1 2 sampleRequest sampleEnv
        = (.ok sampleResponse,
           (consume_service_enhanced sampleState 1 2 sampleRequest sampleEnv).2) := by
      rw [← h1]
    obtain ⟨rec, ha, hb⟩ :=
      (consume_one_usage_record_per_success sampleState 1 2 sampleRequest
        sampleEnv).2.2.1 sampleResponse _ heq
    exact ⟨rec, ha, hb.trans rfl⟩
